import Mathlib

/-!
Verification development for the dependency-injection container in
`src/lab7/lab7.py` (class `Injector`, class `Scope`, enumeration `LifeStyle`).

Shallow embedding conventions:
* Python `Type` registry keys (the service identities such as `ILogger`)
  are modelled as `String` (the class name); the module-level `globals()`
  dictionary used by `_resolve_constructor_params` is modelled as an
  association list `GEnv` from names to identities.
* Python exceptions are modelled by `PyErr`; `raise` inside a method is
  modelled by returning `Except.error`, and since Python exceptions do not
  roll back prior mutations, every operation returns the (possibly
  mutated) injector state alongside the `Except` result.
* Object identity (needed for the "same instance" singleton properties)
  is modelled by an allocation counter `next_id` in the injector state:
  each constructed object carries the allocation number it was built at.
* The recursion `get_instance -> _create_instance ->
  _resolve_constructor_params -> get_instance` is made total with a fuel
  parameter; running out of fuel models Python's `RecursionError` from an
  unbounded dependency cycle (a condition the source does not guard).
-/

/-- Python exception values, carrying `str(e)`.  `RecursionError` is a
subclass of `RuntimeError` in Python, which matters for the
`except (ValueError, RuntimeError)` clause of the setter-injection hook. -/
inductive PyErr where
  | valueError : String → PyErr
  | runtimeError : String → PyErr
  | keyError : String → PyErr
  | typeError : String → PyErr
  | recursionError : PyErr
  deriving DecidableEq, Repr

/-- `str(e)` of a Python exception. -/
def PyErr.msg : PyErr → String
  | .valueError m => m
  | .runtimeError m => m
  | .keyError m => m
  | .typeError m => m
  | .recursionError => "maximum recursion depth exceeded"

/-- Whether `except (ValueError, RuntimeError)` catches the exception
(`RecursionError` is a `RuntimeError` subclass, so it is caught). -/
def PyErr.catchableVR : PyErr → Bool
  | .valueError _ => true
  | .runtimeError _ => true
  | .recursionError => true
  | .keyError _ => false
  | .typeError _ => false

/-- Python values as they occur in this program: parameter literals
(strings, ints) and constructed objects.  A constructed object records
its class, its allocation number (modelling reference identity), the
keyword arguments it was constructed with, and the value stored by a
later `set_logger` call (if any). -/
inductive Value where
  | vstr : String → Value
  | vint : Int → Value
  | vobj : (cls : Nat) → (alloc : Nat) → (args : List (String × Value)) →
      (logger : Option Value) → Value

/-- Class of a constructed object (0 for non-objects). -/
def Value.clsOf : Value → Nat
  | .vobj c _ _ _ => c
  | _ => 0

/-- Allocation number of a constructed object (0 for non-objects). -/
def Value.allocOf : Value → Nat
  | .vobj _ a _ _ => a
  | _ => 0

/-- Effect of `instance.set_logger(l)` on a constructed object
(`SqlDatabase.set_logger` / `SmtpEmailService.set_logger` store the
argument in `self._logger`). -/
def Value.withLogger : Value → Value → Value
  | .vobj c a ps _, l => .vobj c a ps (some l)
  | v, _ => v

/-- Lookup in an association list modelling a Python `dict` (string keys). -/
def lookupA {α : Type} : List (String × α) → String → Option α
  | [], _ => none
  | (k', v) :: t, k => if k' = k then some v else lookupA t k

/-- `d[k] = v` on an association list modelling a Python `dict`:
replace the binding if the key is present, else append it. -/
def insertA {α : Type} : List (String × α) → String → α → List (String × α)
  | [], k, v => [(k, v)]
  | (k', v') :: t, k, v => if k' = k then (k, v) :: t else (k', v') :: insertA t k v

/-- A Python class used as an `implementation` strategy: its constructor
signature (keyword parameters without / with defaults) and whether its
instances expose the `set_logger` attribute that the container probes
with `hasattr`. -/
structure ClassDef where
  cls : Nat
  required : List String
  optional : List String
  has_set_logger : Bool
  deriving DecidableEq, Repr

/-- Behaviours of factory callables registered as strategies (the source
registers e.g. `create_file_logger`).  `fnew` builds and returns a fresh
object ignoring its arguments; `fecho` builds a fresh object recording
the exact keyword arguments it received; `ffail` raises. -/
inductive Factory where
  | fnew : Nat → Factory
  | fecho : Nat → Factory
  | ffail : String → Factory
  deriving DecidableEq, Repr

/-- Calling `factory(**args)` with the allocation counter threaded through. -/
def runFactory : Factory → List (String × Value) → Nat → Except PyErr (Value × Nat)
  | .fnew c, _, n => .ok (.vobj c n [] none, n + 1)
  | .fecho c, args, n => .ok (.vobj c n args none, n + 1)
  | .ffail m, _, _ => .error (.runtimeError m)

/-- The registered strategy: `register` stores the argument under the
`'factory'` key when it is callable but not a class, otherwise under the
`'implementation'` key. -/
inductive Strategy where
  | impl : ClassDef → Strategy
  | factory : Factory → Strategy

/-- One entry of `Injector._registrations`: the dictionary
`{'life_style': ..., 'params': ..., 'factory'/'implementation': ...}`. -/
structure Registration where
  life_style : String
  params : List (String × Value)
  strategy : Strategy

/-- The mutable state of an `Injector` object.  `next_id` is the
allocation counter modelling object identity (see the file comment). -/
structure Injector where
  registrations : List (String × Registration)
  singleton_instances : List (String × Value)
  scoped_instances : List (String × Value)
  in_scope : Bool
  next_id : Nat

/-- `Injector.__init__`. -/
def Injector.init : Injector := ⟨[], [], [], false, 0⟩

/-- `Injector.register`: stores pure metadata, overwriting any previous
binding for the identity.  The `isinstance(implementation, type) or
callable(implementation)` guard always passes in the model because
`Strategy` only contains classes and callables. -/
def Injector.register (inj : Injector) (interface_type : String)
    (implementation : Strategy) (life_style : String)
    (params : List (String × Value)) : Injector :=
  let registration : Registration := ⟨life_style, params, implementation⟩
  { inj with registrations :=
      insertA inj.registrations interface_type registration }

/-- The module-level `globals()` mapping from names (as written after the
`@` sigil) to service identities. -/
abbrev GEnv := List (String × String)

/-- Result of a container operation: the Python return-or-raise outcome
together with the injector state after the call (exceptions do not roll
back mutations). -/
abbrev EResult (α : Type) := Except PyErr α × Injector

/-- Whether a parameter value is a back-reference marker:
`isinstance(param_value, str) and param_value.startswith('@')`. -/
def isMarker : Value → Bool
  | .vstr s => s.data.head? = some '@'
  | _ => false

/-- `param_value[1:]`: the referenced name with the sigil stripped. -/
def markerName : Value → String
  | .vstr s => ⟨s.data.drop 1⟩
  | _ => ""

/-- `implementation(**constructor_params)`: constructing a class instance
succeeds when every required keyword parameter is supplied and no
unexpected keyword is passed (Python raises `TypeError` otherwise); the
new object is allocated at the current counter. -/
def construct (cd : ClassDef) (args : List (String × Value)) (n : Nat) :
    Except PyErr (Value × Nat) :=
  if cd.required.all (fun r => (lookupA args r).isSome) &&
      args.all (fun kv => cd.required.contains kv.1 || cd.optional.contains kv.1)
  then .ok (.vobj cd.cls n args none, n + 1)
  else .error (.typeError ("unexpected or missing constructor arguments for class " ++
    toString cd.cls))

/-- The `except Exception as e: raise RuntimeError(f"Failed to create
instance of {name}: {str(e)}")` handler shared (verbatim) by
`get_instance` and `_create_instance`. -/
def wrapCreateErr (ty : String) : EResult Value → EResult Value
  | (.ok v, inj) => (.ok v, inj)
  | (.error e, inj) =>
      (.error (.runtimeError ("Failed to create instance of " ++ ty ++ ": " ++ e.msg)), inj)

mutual

/-- `Injector.get_instance` (src/lab7/lab7.py lines 62-99).  The
unregistered-identity `ValueError` is raised before the `try` block, so
it is never wrapped; everything inside the dispatch — including the
out-of-scope `RuntimeError` — is wrapped by `wrapCreateErr`. -/
def get_instance (genv : GEnv) : Nat → Injector → String → EResult Value
  | 0, inj, _ => (.error .recursionError, inj)
  | fuel + 1, inj, ty =>
    match lookupA inj.registrations ty with
    | none => (.error (.valueError ("No registration found for " ++ ty)), inj)
    | some registration =>
      wrapCreateErr ty (
        if registration.life_style = "Singleton" then
          match lookupA inj.singleton_instances ty with
          | some v => (.ok v, inj)
          | none =>
            match create_instance genv fuel inj ty with
            | (.ok v, inj1) =>
                (.ok v, { inj1 with
                  singleton_instances := insertA inj1.singleton_instances ty v })
            | (.error e, inj1) => (.error e, inj1)
        else if registration.life_style = "Scoped" then
          if inj.in_scope then
            match lookupA inj.scoped_instances ty with
            | some v => (.ok v, inj)
            | none =>
              match create_instance genv fuel inj ty with
              | (.ok v, inj1) =>
                  (.ok v, { inj1 with
                    scoped_instances := insertA inj1.scoped_instances ty v })
              | (.error e, inj1) => (.error e, inj1)
          else
            (.error (.runtimeError "Cannot get scoped instance outside of a scope"), inj)
        else
          create_instance genv fuel inj ty)

/-- `Injector._create_instance` (lines 101-140).  The registration lookup
(line 114) precedes the `try`, so a missing key would raise an unwrapped
`KeyError` (unreachable from `get_instance`).  The factory branch passes
`registration['params']` to the callable unresolved.  The class branch
resolves parameters, constructs, then best-effort-injects the logger,
swallowing `ValueError`/`RuntimeError` from that lookup. -/
def create_instance (genv : GEnv) : Nat → Injector → String → EResult Value
  | 0, inj, _ => (.error .recursionError, inj)
  | fuel + 1, inj, ty =>
    match lookupA inj.registrations ty with
    | none => (.error (.keyError ty), inj)
    | some registration =>
      wrapCreateErr ty (
        match registration.strategy with
        | .factory f =>
          match runFactory f registration.params inj.next_id with
          | .ok (v, n) => (.ok v, { inj with next_id := n })
          | .error e => (.error e, inj)
        | .impl cd =>
          match resolve_constructor_params genv fuel inj registration.params with
          | (.error e, inj1) => (.error e, inj1)
          | (.ok cps, inj1) =>
            match construct cd cps inj1.next_id with
            | .error e => (.error e, inj1)
            | .ok (inst, n) =>
              if cd.has_set_logger then
                match get_instance genv fuel { inj1 with next_id := n } "ILogger" with
                | (.ok lg, inj2) => (.ok (inst.withLogger lg), inj2)
                | (.error e, inj2) =>
                  if e.catchableVR then (.ok inst, inj2) else (.error e, inj2)
              else (.ok inst, { inj1 with next_id := n }))

/-- `Injector._resolve_constructor_params` (lines 142-166): entries are
processed in dictionary order; a marker whose name is absent from
`globals()` raises `ValueError` (the `except KeyError` branch); errors
from the recursive `get_instance` propagate unchanged (they are never
`KeyError`). -/
def resolve_constructor_params (genv : GEnv) :
    Nat → Injector → List (String × Value) → EResult (List (String × Value))
  | 0, inj, _ => (.error .recursionError, inj)
  | _ + 1, inj, [] => (.ok [], inj)
  | fuel + 1, inj, (k, v) :: rest =>
    if isMarker v then
      match lookupA genv (markerName v) with
      | none => (.error (.valueError ("Dependency " ++ markerName v ++ " not found")), inj)
      | some dep =>
        match get_instance genv fuel inj dep with
        | (.error e, inj1) => (.error e, inj1)
        | (.ok u, inj1) =>
          match resolve_constructor_params genv fuel inj1 rest with
          | (.ok rs, inj2) => (.ok ((k, u) :: rs), inj2)
          | (.error e, inj2) => (.error e, inj2)
    else
      match resolve_constructor_params genv fuel inj rest with
      | (.ok rs, inj2) => (.ok ((k, v) :: rs), inj2)
      | (.error e, inj2) => (.error e, inj2)

end

/-- `Scope.__enter__` (lines 184-188): sets the flag and resets the
scoped cache, returning the injector. -/
def scopeEnter (inj : Injector) : Injector :=
  { inj with in_scope := true, scoped_instances := [] }

/-- `Scope.__exit__` (lines 190-195): unconditionally clears the flag and
the scoped cache, whatever the exception information is. -/
def scopeExit (inj : Injector) : Injector :=
  { inj with in_scope := false, scoped_instances := [] }

/-- `with injector.scope(): body` — Python's `with` statement runs
`__enter__`, then the body, then `__exit__` regardless of whether the
body returned normally or raised; the body's outcome is preserved. -/
def withScope {α : Type} (inj : Injector)
    (body : Injector → Except PyErr α × Injector) : Except PyErr α × Injector :=
  let r := body (scopeEnter inj)
  (r.1, scopeExit r.2)

/-- The error component of an outcome (used to state claims about which
exception reaches the caller). -/
def errOf {α : Type} : Except PyErr α → Option PyErr
  | .error e => some e
  | .ok _ => none

/-- The constructor-argument dictionary of a returned instance (used to
observe what a factory or constructor actually received). -/
def okArgs : Except PyErr Value → List (String × Value)
  | .ok (.vobj _ _ args _) => args
  | _ => []

/-- The class of a returned instance (0 when the outcome is an error). -/
def okCls : Except PyErr Value → Nat
  | .ok v => v.clsOf
  | _ => 0

theorem lookupA_insertA_self {α : Type} (m : List (String × α)) (k : String) (v : α) :
    lookupA (insertA m k v) k = some v := by
  induction m with
  | nil => simp [insertA, lookupA]
  | cons h t ih =>
    by_cases hk : h.1 = k
    · simp [insertA, hk, lookupA]
    · simp [insertA, hk, lookupA, ih]

theorem lookupA_insertA_ne {α : Type} (m : List (String × α)) (k k' : String) (v : α)
    (h : k ≠ k') : lookupA (insertA m k v) k' = lookupA m k' := by
  induction m with
  | nil => simp [insertA, lookupA, h]
  | cons hd t ih =>
    by_cases hk : hd.1 = k
    · simp [insertA, hk, lookupA, h]
    · simp [insertA, hk, lookupA, ih]

theorem wrapCreateErr_snd (ty : String) (p : EResult Value) :
    (wrapCreateErr ty p).2 = p.2 := by
  obtain ⟨r, s⟩ := p
  cases r <;> rfl

theorem wrapCreateErr_ok (ty : String) (v : Value) (s : Injector) :
    wrapCreateErr ty (.ok v, s) = (.ok v, s) := rfl

theorem wrapCreateErr_error (ty : String) (e : PyErr) (s : Injector) :
    wrapCreateErr ty (.error e, s) =
      (.error (.runtimeError ("Failed to create instance of " ++ ty ++ ": " ++ e.msg)), s) := rfl

theorem wrapCreateErr_ok_iff (ty : String) (p : EResult Value) (v : Value) :
    (wrapCreateErr ty p).1 = .ok v ↔ p.1 = .ok v := by
  obtain ⟨r, s⟩ := p
  cases r <;> simp [wrapCreateErr]

/-- Every error produced by `wrapCreateErr` is a `RuntimeError`, hence
caught by `except (ValueError, RuntimeError)`. -/
theorem wrapCreateErr_catchable (ty : String) (p : EResult Value) (e : PyErr)
    (h : (wrapCreateErr ty p).1 = .error e) : e.catchableVR = true := by
  obtain ⟨r, s⟩ := p
  cases r with
  | ok v => simp [wrapCreateErr] at h
  | error e' =>
    simp [wrapCreateErr] at h
    subst h
    rfl

/-- None of `get_instance`, `_create_instance`,
`_resolve_constructor_params` ever writes `self._registrations` or
`self._in_scope`: those fields are only written by `register` and by the
`Scope` context manager. -/
theorem preserve_core (genv : GEnv) : ∀ fuel : Nat,
    (∀ inj ty, (get_instance genv fuel inj ty).2.registrations = inj.registrations
      ∧ (get_instance genv fuel inj ty).2.in_scope = inj.in_scope)
    ∧ (∀ inj ty, (create_instance genv fuel inj ty).2.registrations = inj.registrations
      ∧ (create_instance genv fuel inj ty).2.in_scope = inj.in_scope)
    ∧ (∀ inj ps, (resolve_constructor_params genv fuel inj ps).2.registrations = inj.registrations
      ∧ (resolve_constructor_params genv fuel inj ps).2.in_scope = inj.in_scope) := by
  intro fuel
  induction fuel with
  | zero =>
    exact ⟨fun inj ty => ⟨rfl, rfl⟩, fun inj ty => ⟨rfl, rfl⟩, fun inj ps => ⟨rfl, rfl⟩⟩
  | succ f ih =>
    obtain ⟨ihg, ihc, ihr⟩ := ih
    refine ⟨fun inj ty => ?_, fun inj ty => ?_, fun inj ps => ?_⟩
    · simp only [get_instance]
      split
      · exact ⟨rfl, rfl⟩
      · rw [wrapCreateErr_snd]
        split
        · split
          · exact ⟨rfl, rfl⟩
          · split
            · rename_i v inj1 heq
              have h := ihc inj ty
              rw [heq] at h
              exact ⟨h.1, h.2⟩
            · rename_i e inj1 heq
              have h := ihc inj ty
              rw [heq] at h
              exact h
        · split
          · split
            · split
              · exact ⟨rfl, rfl⟩
              · split
                · rename_i v inj1 heq
                  have h := ihc inj ty
                  rw [heq] at h
                  exact ⟨h.1, h.2⟩
                · rename_i e inj1 heq
                  have h := ihc inj ty
                  rw [heq] at h
                  exact h
            · exact ⟨rfl, rfl⟩
          · exact ihc inj ty
    · simp only [create_instance]
      split
      · exact ⟨rfl, rfl⟩
      · rename_i reg hreg
        rw [wrapCreateErr_snd]
        split
        · split
          · exact ⟨rfl, rfl⟩
          · exact ⟨rfl, rfl⟩
        · rename_i cd hcd
          split
          · rename_i e inj1 heq
            have h := ihr inj reg.params
            rw [heq] at h
            exact h
          · rename_i cps inj1 heq
            have h1 := ihr inj reg.params
            rw [heq] at h1
            split
            · exact h1
            · rename_i inst n hcon
              split
              · split
                · rename_i lg inj2 heq2
                  have h2 := ihg { inj1 with next_id := n } "ILogger"
                  rw [heq2] at h2
                  exact ⟨h2.1.trans h1.1, h2.2.trans h1.2⟩
                · rename_i e inj2 heq2
                  have h2 := ihg { inj1 with next_id := n } "ILogger"
                  rw [heq2] at h2
                  split
                  · exact ⟨h2.1.trans h1.1, h2.2.trans h1.2⟩
                  · exact ⟨h2.1.trans h1.1, h2.2.trans h1.2⟩
              · exact h1
    · match ps with
      | [] => exact ⟨rfl, rfl⟩
      | (k, v) :: rest =>
        simp only [resolve_constructor_params]
        split
        · split
          · exact ⟨rfl, rfl⟩
          · split
            · rename_i dep hdep xx e inj1 heq
              have h := ihg inj dep
              rw [heq] at h
              exact h
            · rename_i dep hdep xx u inj1 heq
              have h1 := ihg inj dep
              rw [heq] at h1
              split
              · rename_i rs inj2 heq2
                have h2 := ihr inj1 rest
                rw [heq2] at h2
                exact ⟨h2.1.trans h1.1, h2.2.trans h1.2⟩
              · rename_i e inj2 heq2
                have h2 := ihr inj1 rest
                rw [heq2] at h2
                exact ⟨h2.1.trans h1.1, h2.2.trans h1.2⟩
        · split
          · rename_i rs inj2 heq2
            have h2 := ihr inj rest
            rw [heq2] at h2
            exact h2
          · rename_i e inj2 heq2
            have h2 := ihr inj rest
            rw [heq2] at h2
            exact h2

/-- The identities that one resolution step out of `x` may call
`get_instance` on: the `globals()`-resolved targets of the back-reference
markers in `x`'s registered params, plus `ILogger` when the registered
class exposes the setter hook.  Factories resolve nothing. -/
def depIds (genv : GEnv) (inj : Injector) (x : String) : List String :=
  match lookupA inj.registrations x with
  | none => []
  | some r =>
    match r.strategy with
    | .factory _ => []
    | .impl cd =>
      (r.params.filterMap fun kv =>
        if isMarker kv.2 then lookupA genv (markerName kv.2) else none)
      ++ (if cd.has_set_logger then ["ILogger"] else [])

/-- `S` is closed under one-step dependencies of the registry. -/
def closedUnder (genv : GEnv) (inj : Injector) (S : List String) : Prop :=
  ∀ x ∈ S, ∀ d ∈ depIds genv inj x, d ∈ S

theorem depIds_congr (genv : GEnv) {inj inj' : Injector}
    (h : inj'.registrations = inj.registrations) (x : String) :
    depIds genv inj' x = depIds genv inj x := by
  simp [depIds, h]

theorem closedUnder_congr (genv : GEnv) {inj inj' : Injector}
    (h : inj'.registrations = inj.registrations) {S : List String}
    (hc : closedUnder genv inj S) : closedUnder genv inj' S := by
  intro x hx d hd
  rw [depIds_congr genv h] at hd
  exact hc x hx d hd

/-- If `ty`'s current registration is neither `Singleton` nor `Scoped`,
then no container operation — on any identity, at any depth — reads a
meaning into or writes an entry under `ty` in either instance cache:
cache writes for `ty` only happen in `get_instance ty`'s `Singleton` and
`Scoped` branches, which the registration rules out. -/
theorem pres_transient (genv : GEnv) (ty : String) (r : Registration)
    (h1 : r.life_style ≠ "Singleton") (h2 : r.life_style ≠ "Scoped") : ∀ fuel : Nat,
    (∀ inj x, lookupA inj.registrations ty = some r →
      lookupA (get_instance genv fuel inj x).2.singleton_instances ty
          = lookupA inj.singleton_instances ty
      ∧ lookupA (get_instance genv fuel inj x).2.scoped_instances ty
          = lookupA inj.scoped_instances ty)
    ∧ (∀ inj x, lookupA inj.registrations ty = some r →
      lookupA (create_instance genv fuel inj x).2.singleton_instances ty
          = lookupA inj.singleton_instances ty
      ∧ lookupA (create_instance genv fuel inj x).2.scoped_instances ty
          = lookupA inj.scoped_instances ty)
    ∧ (∀ inj ps, lookupA inj.registrations ty = some r →
      lookupA (resolve_constructor_params genv fuel inj ps).2.singleton_instances ty
          = lookupA inj.singleton_instances ty
      ∧ lookupA (resolve_constructor_params genv fuel inj ps).2.scoped_instances ty
          = lookupA inj.scoped_instances ty) := by
  intro fuel
  induction fuel with
  | zero =>
    exact ⟨fun inj x _ => ⟨rfl, rfl⟩, fun inj x _ => ⟨rfl, rfl⟩, fun inj ps _ => ⟨rfl, rfl⟩⟩
  | succ f ih =>
    obtain ⟨ihg, ihc, ihr⟩ := ih
    refine ⟨fun inj x hreg => ?_, fun inj x hreg => ?_, fun inj ps hreg => ?_⟩
    · simp only [get_instance]
      split
      · exact ⟨rfl, rfl⟩
      · rename_i reg' hx
        rw [wrapCreateErr_snd]
        have hxty : reg'.life_style = "Singleton" ∨ reg'.life_style = "Scoped" → x ≠ ty := by
          intro hls hxy
          rw [hxy, hreg] at hx
          cases hx
          cases hls with
          | inl h => exact h1 h
          | inr h => exact h2 h
        split
        · rename_i hsing
          split
          · exact ⟨rfl, rfl⟩
          · split
            · rename_i v inj1 heq
              have h := ihc inj x hreg
              rw [heq] at h
              have hne : x ≠ ty := hxty (Or.inl hsing)
              exact ⟨(lookupA_insertA_ne _ _ _ _ hne).trans h.1, h.2⟩
            · rename_i e inj1 heq
              have h := ihc inj x hreg
              rw [heq] at h
              exact h
        · split
          · rename_i hnsing hscop
            split
            · split
              · exact ⟨rfl, rfl⟩
              · split
                · rename_i v inj1 heq
                  have h := ihc inj x hreg
                  rw [heq] at h
                  have hne : x ≠ ty := hxty (Or.inr hscop)
                  exact ⟨h.1, (lookupA_insertA_ne _ _ _ _ hne).trans h.2⟩
                · rename_i e inj1 heq
                  have h := ihc inj x hreg
                  rw [heq] at h
                  exact h
            · exact ⟨rfl, rfl⟩
          · exact ihc inj x hreg
    · simp only [create_instance]
      split
      · exact ⟨rfl, rfl⟩
      · rename_i reg' hx
        rw [wrapCreateErr_snd]
        split
        · split
          · exact ⟨rfl, rfl⟩
          · exact ⟨rfl, rfl⟩
        · rename_i cd hcd
          split
          · rename_i e inj1 heq
            have h := ihr inj reg'.params hreg
            rw [heq] at h
            exact h
          · rename_i cps inj1 heq
            have h1 := ihr inj reg'.params hreg
            rw [heq] at h1
            have hreg1 : lookupA inj1.registrations ty = some r := by
              have hp := (preserve_core genv f).2.2 inj reg'.params
              rw [heq] at hp
              rw [hp.1, hreg]
            split
            · exact h1
            · rename_i inst n hcon
              split
              · split
                · rename_i lg inj2 heq2
                  have h2 := ihg { inj1 with next_id := n } "ILogger" hreg1
                  rw [heq2] at h2
                  exact ⟨h2.1.trans h1.1, h2.2.trans h1.2⟩
                · rename_i e inj2 heq2
                  have h2 := ihg { inj1 with next_id := n } "ILogger" hreg1
                  rw [heq2] at h2
                  split
                  · exact ⟨h2.1.trans h1.1, h2.2.trans h1.2⟩
                  · exact ⟨h2.1.trans h1.1, h2.2.trans h1.2⟩
              · exact h1
    · match ps with
      | [] => exact ⟨rfl, rfl⟩
      | (k, v) :: rest =>
        simp only [resolve_constructor_params]
        split
        · split
          · exact ⟨rfl, rfl⟩
          · split
            · rename_i dep hdep xx e inj1 heq
              have h := ihg inj dep hreg
              rw [heq] at h
              exact h
            · rename_i dep hdep xx u inj1 heq
              have h1 := ihg inj dep hreg
              rw [heq] at h1
              have hreg1 : lookupA inj1.registrations ty = some r := by
                have hp := (preserve_core genv f).1 inj dep
                rw [heq] at hp
                rw [hp.1, hreg]
              split
              · rename_i rs inj2 heq2
                have h2 := ihr inj1 rest hreg1
                rw [heq2] at h2
                exact ⟨h2.1.trans h1.1, h2.2.trans h1.2⟩
              · rename_i e inj2 heq2
                have h2 := ihr inj1 rest hreg1
                rw [heq2] at h2
                exact ⟨h2.1.trans h1.1, h2.2.trans h1.2⟩
        · split
          · rename_i rs inj2 heq2
            have h2 := ihr inj rest hreg
            rw [heq2] at h2
            exact h2
          · rename_i e inj2 heq2
            have h2 := ihr inj rest hreg
            rw [heq2] at h2
            exact h2

/-- Cache non-interference along a dependency-closed set: if `S` is
closed under one-step dependencies, every identity the call can recurse
into stays inside `S`, so an identity `ty` outside `S` never has its
cache entries touched.  This is the formal content of "a failed build
does not poison the cache" for acyclic registries: the only way a failed
`get_instance ty` could still insert under `ty` is a dependency cycle
running back into `ty`. -/
theorem presS (genv : GEnv) (S : List String) (ty : String) (hty : ty ∉ S) : ∀ fuel : Nat,
    (∀ inj x, closedUnder genv inj S → x ∈ S →
      lookupA (get_instance genv fuel inj x).2.singleton_instances ty
          = lookupA inj.singleton_instances ty
      ∧ lookupA (get_instance genv fuel inj x).2.scoped_instances ty
          = lookupA inj.scoped_instances ty)
    ∧ (∀ inj x, closedUnder genv inj S → (∀ d ∈ depIds genv inj x, d ∈ S) →
      lookupA (create_instance genv fuel inj x).2.singleton_instances ty
          = lookupA inj.singleton_instances ty
      ∧ lookupA (create_instance genv fuel inj x).2.scoped_instances ty
          = lookupA inj.scoped_instances ty)
    ∧ (∀ inj ps, closedUnder genv inj S →
      (∀ kv ∈ ps, ∀ d, isMarker kv.2 = true → lookupA genv (markerName kv.2) = some d → d ∈ S) →
      lookupA (resolve_constructor_params genv fuel inj ps).2.singleton_instances ty
          = lookupA inj.singleton_instances ty
      ∧ lookupA (resolve_constructor_params genv fuel inj ps).2.scoped_instances ty
          = lookupA inj.scoped_instances ty) := by
  intro fuel
  induction fuel with
  | zero =>
    exact ⟨fun inj x _ _ => ⟨rfl, rfl⟩, fun inj x _ _ => ⟨rfl, rfl⟩,
      fun inj ps _ _ => ⟨rfl, rfl⟩⟩
  | succ f ih =>
    obtain ⟨ihg, ihc, ihr⟩ := ih
    refine ⟨fun inj x hcl hx => ?_, fun inj x hcl hdeps => ?_, fun inj ps hcl hps => ?_⟩
    · have hne : x ≠ ty := fun h => hty (h ▸ hx)
      have hdeps : ∀ d ∈ depIds genv inj x, d ∈ S := hcl x hx
      simp only [get_instance]
      split
      · exact ⟨rfl, rfl⟩
      · rename_i reg' hxreg
        rw [wrapCreateErr_snd]
        split
        · split
          · exact ⟨rfl, rfl⟩
          · split
            · rename_i v inj1 heq
              have h := ihc inj x hcl hdeps
              rw [heq] at h
              exact ⟨(lookupA_insertA_ne _ _ _ _ hne).trans h.1, h.2⟩
            · rename_i e inj1 heq
              have h := ihc inj x hcl hdeps
              rw [heq] at h
              exact h
        · split
          · split
            · split
              · exact ⟨rfl, rfl⟩
              · split
                · rename_i v inj1 heq
                  have h := ihc inj x hcl hdeps
                  rw [heq] at h
                  exact ⟨h.1, (lookupA_insertA_ne _ _ _ _ hne).trans h.2⟩
                · rename_i e inj1 heq
                  have h := ihc inj x hcl hdeps
                  rw [heq] at h
                  exact h
            · exact ⟨rfl, rfl⟩
          · exact ihc inj x hcl hdeps
    · simp only [create_instance]
      split
      · exact ⟨rfl, rfl⟩
      · rename_i reg' hxreg
        rw [wrapCreateErr_snd]
        split
        · split
          · exact ⟨rfl, rfl⟩
          · exact ⟨rfl, rfl⟩
        · rename_i cd hcd
          have hpsS : ∀ kv ∈ reg'.params, ∀ d, isMarker kv.2 = true →
              lookupA genv (markerName kv.2) = some d → d ∈ S := by
            intro kv hkv d hm hl
            refine hdeps d ?_
            simp only [depIds, hxreg, hcd]
            refine List.mem_append_left _ ?_
            refine List.mem_filterMap.mpr ⟨kv, hkv, ?_⟩
            rw [hm]
            simpa using hl
          split
          · rename_i e inj1 heq
            have h := ihr inj reg'.params hcl hpsS
            rw [heq] at h
            exact h
          · rename_i cps inj1 heq
            have h1 := ihr inj reg'.params hcl hpsS
            rw [heq] at h1
            have hregs1 : inj1.registrations = inj.registrations := by
              have hp := (preserve_core genv f).2.2 inj reg'.params
              rw [heq] at hp
              exact hp.1
            have hcl1 : closedUnder genv inj1 S := closedUnder_congr genv hregs1 hcl
            split
            · exact h1
            · rename_i inst n hcon
              split
              · rename_i hhook
                have hlogS : "ILogger" ∈ S := by
                  refine hdeps "ILogger" ?_
                  simp only [depIds, hxreg, hcd]
                  refine List.mem_append_right _ ?_
                  simp [hhook]
                have hcl2 : closedUnder genv { inj1 with next_id := n } S :=
                  closedUnder_congr genv (by simp [hregs1]) hcl
                split
                · rename_i lg inj2 heq2
                  have h2 := ihg { inj1 with next_id := n } "ILogger" hcl2 hlogS
                  rw [heq2] at h2
                  exact ⟨h2.1.trans h1.1, h2.2.trans h1.2⟩
                · rename_i e inj2 heq2
                  have h2 := ihg { inj1 with next_id := n } "ILogger" hcl2 hlogS
                  rw [heq2] at h2
                  split
                  · exact ⟨h2.1.trans h1.1, h2.2.trans h1.2⟩
                  · exact ⟨h2.1.trans h1.1, h2.2.trans h1.2⟩
              · exact h1
    · match ps with
      | [] => exact ⟨rfl, rfl⟩
      | (k, v) :: rest =>
        simp only [resolve_constructor_params]
        split
        · rename_i hmark
          split
          · exact ⟨rfl, rfl⟩
          · split
            · rename_i dep hdep xx e inj1 heq
              have hdS : dep ∈ S := hps (k, v) (List.mem_cons_self _ _) dep hmark hdep
              have h := ihg inj dep hcl hdS
              rw [heq] at h
              exact h
            · rename_i dep hdep xx u inj1 heq
              have hdS : dep ∈ S := hps (k, v) (List.mem_cons_self _ _) dep hmark hdep
              have h1 := ihg inj dep hcl hdS
              rw [heq] at h1
              have hregs1 : inj1.registrations = inj.registrations := by
                have hp := (preserve_core genv f).1 inj dep
                rw [heq] at hp
                exact hp.1
              have hcl1 : closedUnder genv inj1 S := closedUnder_congr genv hregs1 hcl
              have hrest : ∀ kv ∈ rest, ∀ d, isMarker kv.2 = true →
                  lookupA genv (markerName kv.2) = some d → d ∈ S :=
                fun kv hkv => hps kv (List.mem_cons_of_mem _ hkv)
              split
              · rename_i rs inj2 heq2
                have h2 := ihr inj1 rest hcl1 hrest
                rw [heq2] at h2
                exact ⟨h2.1.trans h1.1, h2.2.trans h1.2⟩
              · rename_i e inj2 heq2
                have h2 := ihr inj1 rest hcl1 hrest
                rw [heq2] at h2
                exact ⟨h2.1.trans h1.1, h2.2.trans h1.2⟩
        · rename_i hmark
          have hrest : ∀ kv ∈ rest, ∀ d, isMarker kv.2 = true →
              lookupA genv (markerName kv.2) = some d → d ∈ S :=
            fun kv hkv => hps kv (List.mem_cons_of_mem _ hkv)
          split
          · rename_i rs inj2 heq2
            have h2 := ihr inj rest hcl hrest
            rw [heq2] at h2
            exact h2
          · rename_i e inj2 heq2
            have h2 := ihr inj rest hcl hrest
            rw [heq2] at h2
            exact h2

/-! Concrete fixtures used by witnesses and counterexamples, mirroring
the classes of the reference domain: `ConsoleLogger` (class 1, no
constructor parameters, no setter hook) and `SqlDatabase` (class 2,
required `connection_string`, optional `logger`, has `set_logger`). -/

def consoleLoggerCls : ClassDef := ⟨1, [], [], false⟩

def sqlDatabaseCls : ClassDef := ⟨2, ["connection_string"], ["logger"], true⟩

def genvDemo : GEnv := [("ILogger", "ILogger"), ("IDatabase", "IDatabase")]

def c1inj : Injector :=
  Injector.init.register "IDatabase" (.impl sqlDatabaseCls) "Scoped"
    [("connection_string", .vstr "s")]

def c2inj : Injector :=
  (Injector.init.register "ILogger" (.impl consoleLoggerCls) "Singleton" []).register
    "IFileLogger" (.factory (.fecho 9)) "PerRequest" [("logger", .vstr "@ILogger")]

def c3inj1 : Injector :=
  Injector.init.register "X" (.impl ⟨1, [], [], false⟩) "Singleton" []

def c3inj2 : Injector :=
  (get_instance [] 3 c3inj1 "X").2.register "X" (.impl ⟨2, [], [], false⟩) "Singleton" []

def c4inj : Injector :=
  Injector.init.register "IDatabase" (.impl sqlDatabaseCls) "Singleton"
    [("connection_string", .vstr "s"), ("logger", .vstr "@Missing")]

def c7inj : Injector :=
  Injector.init.register "IDatabase" (.impl sqlDatabaseCls) "PerRequest"
    [("connection_string", .vstr "s")]

/-- C1 (counterexample): with `IDatabase` registered as `Scoped` and no
scope active, the error that reaches the caller is the uniform
construction-failure `RuntimeError` produced by `get_instance`'s
`except Exception` handler — not the bare out-of-scope error the claim
says arrives unwrapped: the `raise RuntimeError("Cannot get scoped
instance outside of a scope")` sits inside the `try` block
(src/lab7/lab7.py lines 82-99) and is therefore re-signalled. -/
theorem spec_c1_counterexample :
    errOf (get_instance genvDemo 5 c1inj "IDatabase").1 =
      some (.runtimeError
        "Failed to create instance of IDatabase: Cannot get scoped instance outside of a scope")
    ∧ errOf (get_instance genvDemo 5 c1inj "IDatabase").1 ≠
      some (.runtimeError "Cannot get scoped instance outside of a scope") := by
  refine ⟨rfl, ?_⟩
  rw [show errOf (get_instance genvDemo 5 c1inj "IDatabase").1 =
      some (.runtimeError
        "Failed to create instance of IDatabase: Cannot get scoped instance outside of a scope")
    from rfl]
  decide

/-- C1 (amended): a lookup of an unregistered identity fails with the
unregistered-service `ValueError` directly (it is raised before the
`try` block and reaches the caller unwrapped, with the injector state
unchanged); a `Scoped` lookup with no scope active raises the
out-of-scope `RuntimeError`, but that error is re-signalled by the
uniform construction-failure handler, so the caller receives it wrapped
as `Failed to create instance of ...`. -/
theorem spec_c1 (genv : GEnv) (fuel : Nat) (inj : Injector) (ty : String) :
    (lookupA inj.registrations ty = none →
      get_instance genv (fuel + 1) inj ty =
        (.error (.valueError ("No registration found for " ++ ty)), inj))
    ∧ (∀ r, lookupA inj.registrations ty = some r → r.life_style = "Scoped" →
        inj.in_scope = false →
      get_instance genv (fuel + 1) inj ty =
        (.error (.runtimeError ("Failed to create instance of " ++ ty ++
          ": Cannot get scoped instance outside of a scope")), inj)) := by
  constructor
  · intro h
    simp [get_instance, h]
  · intro r hreg hls hscope
    simp [get_instance, hreg, hls, hscope, wrapCreateErr, PyErr.msg]
    rw [String.append_assoc]
    rfl

/-- Witness for `spec_c1` at the concrete fixture: an unregistered
identity on a fresh injector, and the Scoped registration of `c1inj`
with no scope active. -/
theorem spec_c1_witness :
    get_instance genvDemo 5 Injector.init "IDatabase" =
      (.error (.valueError "No registration found for IDatabase"), Injector.init)
    ∧ get_instance genvDemo 5 c1inj "IDatabase" =
      (.error (.runtimeError
        "Failed to create instance of IDatabase: Cannot get scoped instance outside of a scope"),
        c1inj) :=
  ⟨(spec_c1 genvDemo 4 Injector.init "IDatabase").1 rfl,
   (spec_c1 genvDemo 4 c1inj "IDatabase").2
     ⟨"Scoped", [("connection_string", .vstr "s")], .impl sqlDatabaseCls⟩ rfl rfl rfl⟩

/-- C2 (counterexample): `IFileLogger` is registered with a factory and
params `{'logger': '@ILogger'}` while `ILogger` is registered and
resolvable.  The factory is invoked with the raw parameter map — the
instance it returns still carries the unresolved marker string
`"@ILogger"` as its `logger` argument — whereas the resolved parameter
map (what `_resolve_constructor_params` would produce, and what the
claim says the factory receives) maps `logger` to the constructed
`ConsoleLogger` instance.  `_create_instance` line 121 passes
`registration['params']` to the callable without resolution. -/
theorem spec_c2_counterexample :
    okArgs (get_instance genvDemo 9 c2inj "IFileLogger").1 =
      [("logger", Value.vstr "@ILogger")]
    ∧ isMarker (Value.vstr "@ILogger") = true
    ∧ (resolve_constructor_params genvDemo 9 c2inj [("logger", Value.vstr "@ILogger")]).1 =
      .ok [("logger", Value.vobj 1 0 [] none)]
    ∧ isMarker (Value.vobj 1 0 [] none) = false :=
  ⟨rfl, rfl, rfl, rfl⟩

/-- C2 (amended): a factory-strategy registration invokes the callable
with the registration's raw parameter map (back-reference markers are
NOT substituted); the factory's return value is the returned Instance
unchanged (in particular no setter-hook injection is attempted on it and
no cache is touched — only the allocation counter moves); a raising
factory is wrapped by the construction-failure handler. -/
theorem spec_c2 (genv : GEnv) (fuel : Nat) (inj : Injector) (ty ls : String)
    (ps : List (String × Value)) (fa : Factory)
    (hreg : lookupA inj.registrations ty = some ⟨ls, ps, .factory fa⟩) :
    (∀ v n, runFactory fa ps inj.next_id = .ok (v, n) →
      create_instance genv (fuel + 1) inj ty = (.ok v, { inj with next_id := n }))
    ∧ (∀ e, runFactory fa ps inj.next_id = .error e →
      create_instance genv (fuel + 1) inj ty =
        (.error (.runtimeError ("Failed to create instance of " ++ ty ++ ": " ++ e.msg)), inj)) := by
  constructor
  · intro v n hrun
    simp [create_instance, hreg, hrun, wrapCreateErr]
  · intro e hrun
    simp [create_instance, hreg, hrun, wrapCreateErr]

/-- Witness for `spec_c2` at the concrete fixture `c2inj`: the factory
`fecho 9` succeeds and its value — carrying the raw marker — is the
returned instance; a failing factory is wrapped. -/
theorem spec_c2_witness :
    create_instance genvDemo 9 c2inj "IFileLogger" =
      (.ok (Value.vobj 9 0 [("logger", Value.vstr "@ILogger")] none),
        { c2inj with next_id := 1 }) :=
  (spec_c2 genvDemo 8 c2inj "IFileLogger" "PerRequest"
      [("logger", Value.vstr "@ILogger")] (.fecho 9) rfl).1
    (Value.vobj 9 0 [("logger", Value.vstr "@ILogger")] none) 1 rfl

/-- C3 (counterexample): register `X` as Singleton (class 1), build it
once (caching the class-1 instance), then re-register `X` as Singleton
with class 2.  The re-registration replaces the binding, but the next
`get_instance "X"` returns the cached class-1 instance built under the
first registration — it does not reflect the second registration. -/
theorem spec_c3_counterexample :
    lookupA c3inj2.registrations "X" =
      some ⟨"Singleton", [], .impl ⟨2, [], [], false⟩⟩
    ∧ okCls (get_instance [] 3 c3inj2 "X").1 = 1
    ∧ (1 : Nat) ≠ 2 :=
  ⟨rfl, rfl, by decide⟩

/-- C3 (amended): `register` called twice for the same identity replaces
the binding without error (the table holds exactly the second
registration, and other identities are untouched); however, instances
already cached are not invalidated: whenever the current registration
for `X` is Singleton and the singleton cache already holds an instance
under `X` — in particular one built under the replaced first binding —
`get_instance X` returns that cached instance unchanged instead of
building from the current registration. -/
theorem spec_c3 (genv : GEnv) (fuel : Nat) (inj inj' : Injector) (X : String)
    (s1 s2 : Strategy) (l1 l2 : String) (p1 p2 : List (String × Value)) :
    lookupA ((inj.register X s1 l1 p1).register X s2 l2 p2).registrations X =
      some ⟨l2, p2, s2⟩
    ∧ (∀ Y, X ≠ Y →
        lookupA ((inj.register X s1 l1 p1).register X s2 l2 p2).registrations Y =
          lookupA inj.registrations Y)
    ∧ (∀ v r, lookupA inj'.registrations X = some r → r.life_style = "Singleton" →
        lookupA inj'.singleton_instances X = some v →
        get_instance genv (fuel + 1) inj' X = (.ok v, inj')) := by
  refine ⟨?_, fun Y hXY => ?_, fun v r hreg hls hcache => ?_⟩
  · simp [Injector.register, lookupA_insertA_self]
  · simp [Injector.register, lookupA_insertA_ne _ _ _ _ hXY]
  · simp [get_instance, hreg, hls, hcache, wrapCreateErr]

/-- Witness for `spec_c3` at the concrete fixture: after re-registering
`X`, the stale class-1 singleton built under the first binding is
returned. -/
theorem spec_c3_witness :
    lookupA ((Injector.init.register "X" (.impl ⟨1, [], [], false⟩) "Singleton" []).register
        "X" (.impl ⟨2, [], [], false⟩) "Singleton" []).registrations "X" =
      some ⟨"Singleton", [], .impl ⟨2, [], [], false⟩⟩
    ∧ get_instance [] 3 c3inj2 "X" = (.ok (Value.vobj 1 0 [] none), c3inj2) :=
  ⟨(spec_c3 [] 2 Injector.init c3inj2 "X" (.impl ⟨1, [], [], false⟩)
      (.impl ⟨2, [], [], false⟩) "Singleton" "Singleton" [] []).1,
   (spec_c3 [] 2 Injector.init c3inj2 "X" (.impl ⟨1, [], [], false⟩)
      (.impl ⟨2, [], [], false⟩) "Singleton" "Singleton" [] []).2.2
     (Value.vobj 1 0 [] none) ⟨"Singleton", [], .impl ⟨2, [], [], false⟩⟩ rfl rfl rfl⟩

/-- Every error that escapes `get_instance` is caught by
`except (ValueError, RuntimeError)`: the pre-`try` failure is a
`ValueError`, everything raised inside the dispatch leaves through the
wrapping handler as a `RuntimeError`, and stack exhaustion is a
`RecursionError` (a `RuntimeError` subclass). -/
theorem get_instance_err_catchable (genv : GEnv) (fuel : Nat) (inj : Injector)
    (ty : String) (e : PyErr)
    (h : (get_instance genv fuel inj ty).1 = .error e) : e.catchableVR = true := by
  match fuel with
  | 0 =>
    simp only [get_instance] at h
    cases h
    rfl
  | fuel + 1 =>
    simp only [get_instance] at h
    split at h
    · cases h
      rfl
    · exact wrapCreateErr_catchable _ _ _ h

/-- C5: for a Singleton-registered identity, (a) when the singleton
cache already holds an instance, `get_instance` returns exactly that
cached instance with the injector state unchanged — no construction
runs; (b) whenever a call succeeds, the returned instance is in the
singleton cache afterwards and every later call (at any fuel) returns
the identical instance with no further state change — the first
successful call is the one that builds and inserts, and construction
never runs again for that identity. -/
theorem spec_c5 (genv : GEnv) (fuel : Nat) (inj : Injector) (ty : String)
    (r : Registration) (hreg : lookupA inj.registrations ty = some r)
    (hls : r.life_style = "Singleton") :
    (∀ v, lookupA inj.singleton_instances ty = some v →
      get_instance genv (fuel + 1) inj ty = (.ok v, inj))
    ∧ (∀ v inj', get_instance genv (fuel + 1) inj ty = (.ok v, inj') →
      lookupA inj'.singleton_instances ty = some v
      ∧ ∀ f2, get_instance genv (f2 + 1) inj' ty = (.ok v, inj')) := by
  constructor
  · intro v hcache
    simp [get_instance, hreg, hls, hcache, wrapCreateErr]
  · intro v inj' hget
    simp only [get_instance, hreg, hls, reduceIte] at hget
    split at hget
    · rename_i w hcache
      rw [wrapCreateErr_ok] at hget
      have h1 : (Except.ok w : Except PyErr Value) = .ok v := congrArg Prod.fst hget
      have h2 : inj = inj' := congrArg Prod.snd hget
      injection h1 with h1
      subst h1
      subst h2
      refine ⟨hcache, fun f2 => ?_⟩
      simp [get_instance, hreg, hls, hcache, wrapCreateErr]
    · rename_i hcache
      split at hget
      · rename_i u inj1 hcr
        rw [wrapCreateErr_ok] at hget
        have h1 : (Except.ok u : Except PyErr Value) = .ok v := congrArg Prod.fst hget
        have h2 : ({ inj1 with
            singleton_instances := insertA inj1.singleton_instances ty u } : Injector)
            = inj' := congrArg Prod.snd hget
        injection h1 with h1
        subst h1
        subst h2
        have hregs1 : inj1.registrations = inj.registrations := by
          have hp := (preserve_core genv fuel).2.1 inj ty
          rw [hcr] at hp
          exact hp.1
        have hreg' : lookupA inj1.registrations ty = some r := by rw [hregs1, hreg]
        refine ⟨lookupA_insertA_self _ _ _, fun f2 => ?_⟩
        simp [get_instance, hreg', hls, lookupA_insertA_self, wrapCreateErr]
      · rename_i e inj1 hcr
        rw [wrapCreateErr_error] at hget
        have h1 := congrArg Prod.fst hget
        simp at h1

/-- Witness for `spec_c5`: on the concrete Singleton fixture the first
call builds and caches the class-1 instance, and the repeat call
returns the identical cached instance with the state unchanged. -/
theorem spec_c5_witness :
    lookupA (get_instance [] 3 c3inj1 "X").2.singleton_instances "X" =
      some (Value.vobj 1 0 [] none)
    ∧ get_instance [] 9 (get_instance [] 3 c3inj1 "X").2 "X" =
      (.ok (Value.vobj 1 0 [] none), (get_instance [] 3 c3inj1 "X").2) :=
  have h := (spec_c5 [] 2 c3inj1 "X" ⟨"Singleton", [], .impl ⟨1, [], [], false⟩⟩ rfl rfl).2
    (Value.vobj 1 0 [] none) (get_instance [] 3 c3inj1 "X").2 rfl
  ⟨h.1, h.2 8⟩

/-- C7: for a type-strategy registration whose class exposes the
`set_logger` hook, when parameter resolution and construction succeed
but resolving the secondary logger service fails — for any failure the
hook's `except (ValueError, RuntimeError)` clause sees, which by
`get_instance_err_catchable` is every failure `get_instance` can
produce, including the unregistered-service case — the injection is
silently skipped and `_create_instance` still returns the constructed
instance, with no error surfaced and the logger slot untouched. -/
theorem spec_c7 (genv : GEnv) (fuel : Nat) (inj inj1 inj2 : Injector)
    (ty ls : String) (ps cps : List (String × Value)) (cd : ClassDef)
    (inst : Value) (n : Nat) (e : PyErr)
    (hreg : lookupA inj.registrations ty = some ⟨ls, ps, .impl cd⟩)
    (hhook : cd.has_set_logger = true)
    (hres : resolve_constructor_params genv fuel inj ps = (.ok cps, inj1))
    (hcon : construct cd cps inj1.next_id = .ok (inst, n))
    (hlog : get_instance genv fuel { inj1 with next_id := n } "ILogger" = (.error e, inj2)) :
    create_instance genv (fuel + 1) inj ty = (.ok inst, inj2) := by
  have hcatch : e.catchableVR = true := by
    refine get_instance_err_catchable genv fuel { inj1 with next_id := n } "ILogger" e ?_
    rw [hlog]
  simp [create_instance, hreg, hres, hcon, hhook, hlog, hcatch, wrapCreateErr]

/-- Witness for `spec_c7`: `IDatabase -> SqlDatabase` (a class with
`set_logger`) while `ILogger` is unregistered: construction succeeds,
the logger injection is skipped. -/
theorem spec_c7_witness :
    create_instance genvDemo 5 c7inj "IDatabase" =
      (.ok (Value.vobj 2 0 [("connection_string", Value.vstr "s")] none),
        { c7inj with next_id := 1 }) :=
  spec_c7 genvDemo 4 c7inj c7inj { c7inj with next_id := 1 } "IDatabase" "PerRequest"
    [("connection_string", Value.vstr "s")] [("connection_string", Value.vstr "s")]
    sqlDatabaseCls (Value.vobj 2 0 [("connection_string", Value.vstr "s")] none) 1
    (.valueError "No registration found for ILogger") rfl rfl rfl rfl rfl

/-- C8: leaving a scope — whatever the body did, normal return or raise
(the body below is an arbitrary state transformer returning either
outcome) — unconditionally clears the in-scope flag and empties the
scoped-instance cache, and the body's own outcome is passed through
unchanged; consequently a subsequent scope activation starts from an
empty scoped cache and can never observe an instance built during a
previous activation. -/
theorem spec_c8 {α : Type} (inj : Injector)
    (body : Injector → Except PyErr α × Injector) :
    (withScope inj body).2.in_scope = false
    ∧ (withScope inj body).2.scoped_instances = []
    ∧ (withScope inj body).1 = (body (scopeEnter inj)).1
    ∧ (∀ ty, lookupA (scopeEnter (withScope inj body).2).scoped_instances ty = none) :=
  ⟨rfl, rfl, rfl, fun _ => rfl⟩

/-- The externally visible operations on one injector, used to state the
reachable-state invariants of the scope state machine. -/
inductive Op where
  | reg : String → Strategy → String → List (String × Value) → Op
  | get : String → Op
  | enter : Op
  | exit : Op

/-- One operation step: `register`, `get_instance` (keeping the mutated
state whatever the outcome), `Scope.__enter__`, `Scope.__exit__`. -/
def execOp (genv : GEnv) (fuel : Nat) (inj : Injector) : Op → Injector
  | .reg a s l p => inj.register a s l p
  | .get ty => (get_instance genv fuel inj ty).2
  | .enter => scopeEnter inj
  | .exit => scopeExit inj

/-- Run a sequence of operations from a state. -/
def runOps (genv : GEnv) (fuel : Nat) : Injector → List Op → Injector
  | inj, [] => inj
  | inj, op :: rest => runOps genv fuel (execOp genv fuel inj op) rest

/-- Number of currently active scopes of an injector: the state carries
a single boolean flag, so this is 0 or 1. -/
def activeScopes (inj : Injector) : Nat := if inj.in_scope then 1 else 0

/-- C9: over every reachable operation sequence at most one scope is
active at a time (the scope state space is the two-state machine
{Inactive, Active} carried by the single `_in_scope` boolean: a second
concurrent active scope is unrepresentable, and no operation creates
one); scope entry moves any state to Active, scope exit moves any state
to Inactive — in particular Inactive to Active and Active to Inactive —
and `register` / `get_instance` never change the scope state. -/
theorem spec_c9 (genv : GEnv) (fuel : Nat) :
    (∀ ops, activeScopes (runOps genv fuel Injector.init ops) ≤ 1)
    ∧ (∀ inj, (execOp genv fuel inj .enter).in_scope = true)
    ∧ (∀ inj, (execOp genv fuel inj .exit).in_scope = false)
    ∧ (∀ inj ty, (execOp genv fuel inj (.get ty)).in_scope = inj.in_scope)
    ∧ (∀ inj a s l p, (execOp genv fuel inj (.reg a s l p)).in_scope = inj.in_scope) := by
  refine ⟨fun ops => ?_, fun inj => rfl, fun inj => rfl,
    fun inj ty => ?_, fun inj a s l p => rfl⟩
  · by_cases h : (runOps genv fuel Injector.init ops).in_scope <;> simp [activeScopes, h]
  · exact ((preserve_core genv fuel).1 inj ty).2

/-- C10: for a registration whose `life_style` is any string other than
`"Singleton"` and `"Scoped"` — `register` stores the string with no
validation, as the last conjunct shows for an arbitrary string —
`get_instance` takes the final `else` branch: it is exactly a fresh
`_create_instance` build wrapped by the failure handler, and neither
cache ever gains, loses or changes an entry under that identity (at any
recursion depth, by `pres_transient`). -/
theorem spec_c10 (genv : GEnv) (fuel : Nat) (inj : Injector) (ty : String)
    (r : Registration) (hreg : lookupA inj.registrations ty = some r)
    (h1 : r.life_style ≠ "Singleton") (h2 : r.life_style ≠ "Scoped") :
    get_instance genv (fuel + 1) inj ty = wrapCreateErr ty (create_instance genv fuel inj ty)
    ∧ lookupA (get_instance genv (fuel + 1) inj ty).2.singleton_instances ty =
        lookupA inj.singleton_instances ty
    ∧ lookupA (get_instance genv (fuel + 1) inj ty).2.scoped_instances ty =
        lookupA inj.scoped_instances ty
    ∧ (∀ inj0 X st ls ps,
        lookupA (Injector.register inj0 X st ls ps).registrations X = some ⟨ls, ps, st⟩) := by
  refine ⟨?_, ?_, ?_, fun inj0 X st ls ps => ?_⟩
  · simp [get_instance, hreg, h1, h2]
  · exact ((pres_transient genv ty r h1 h2 (fuel + 1)).1 inj ty hreg).1
  · exact ((pres_transient genv ty r h1 h2 (fuel + 1)).1 inj ty hreg).2
  · simp [Injector.register, lookupA_insertA_self]

/-- Witness for `spec_c10`: a registration with the unrecognized
life style `"Weird"` dispatches as PerRequest (a fresh wrapped build)
and leaves both caches without an entry for the identity. -/
theorem spec_c10_witness :
    get_instance [] 4 (Injector.init.register "X" (.impl ⟨1, [], [], false⟩) "Weird" []) "X" =
      wrapCreateErr "X"
        (create_instance [] 3 (Injector.init.register "X" (.impl ⟨1, [], [], false⟩) "Weird" []) "X")
    ∧ lookupA (get_instance [] 4 (Injector.init.register "X"
        (.impl ⟨1, [], [], false⟩) "Weird" []) "X").2.singleton_instances "X" = none :=
  have h := spec_c10 [] 3 (Injector.init.register "X" (.impl ⟨1, [], [], false⟩) "Weird" [])
    "X" ⟨"Weird", [], .impl ⟨1, [], [], false⟩⟩ rfl (by decide) (by decide)
  ⟨h.1, h.2.1⟩

/-- C4: for a Singleton- or Scoped-registered identity whose one-step
dependencies lie in a dependency-closed set `S` not containing the
identity itself (the acyclicity the source leaves unguarded — a cycle
back into `ty` is the documented fatal condition), a failed
`get_instance` call — for any reason, including an unresolvable
back-reference parameter — inserts no entry under that identity into
either the singleton cache or the scoped cache. -/
theorem spec_c4 (genv : GEnv) (fuel : Nat) (inj : Injector) (ty : String)
    (r : Registration) (S : List String) (e : PyErr)
    (hreg : lookupA inj.registrations ty = some r)
    (hls : r.life_style = "Singleton" ∨ r.life_style = "Scoped")
    (hdeps : ∀ d ∈ depIds genv inj ty, d ∈ S)
    (hcl : closedUnder genv inj S)
    (hty : ty ∉ S)
    (hsing : lookupA inj.singleton_instances ty = none)
    (hscop : lookupA inj.scoped_instances ty = none)
    (herr : (get_instance genv fuel inj ty).1 = .error e) :
    lookupA (get_instance genv fuel inj ty).2.singleton_instances ty = none
    ∧ lookupA (get_instance genv fuel inj ty).2.scoped_instances ty = none := by
  match fuel with
  | 0 => exact ⟨hsing, hscop⟩
  | fuel + 1 =>
    have hpres := (presS genv S ty hty fuel).2.1 inj ty hcl hdeps
    cases hls with
    | inl hS =>
      simp only [get_instance, hreg, hS, String.reduceEq, reduceIte, hsing] at herr ⊢
      cases hcr : create_instance genv fuel inj ty with
      | mk res inj1 =>
        rw [hcr] at hpres
        cases res with
        | ok u =>
          rw [hcr] at herr
          simp [wrapCreateErr] at herr
        | error e' =>
          simp only [wrapCreateErr]
          exact ⟨hpres.1.trans hsing, hpres.2.trans hscop⟩
    | inr hSc =>
      simp only [get_instance, hreg, hSc, String.reduceEq, reduceIte] at herr ⊢
      cases hscope : inj.in_scope with
      | false =>
        simp only [hscope, Bool.false_eq_true, reduceIte] at herr ⊢
        exact ⟨hsing, hscop⟩
      | true =>
        simp only [hscope, reduceIte, hscop] at herr ⊢
        cases hcr : create_instance genv fuel inj ty with
        | mk res inj1 =>
          rw [hcr] at hpres
          cases res with
          | ok u =>
          rw [hcr] at herr
          simp [wrapCreateErr] at herr
          | error e' =>
            simp only [wrapCreateErr]
            exact ⟨hpres.1.trans hsing, hpres.2.trans hscop⟩

/-- Witness for `spec_c4` at the concrete fixture `c4inj`: `IDatabase`
is Singleton-registered with an unresolvable back-reference
`'@Missing'`; the build fails and no entry for `IDatabase` appears in
either cache. -/
theorem spec_c4_witness :
    lookupA (get_instance genvDemo 9 c4inj "IDatabase").2.singleton_instances "IDatabase" = none
    ∧ lookupA (get_instance genvDemo 9 c4inj "IDatabase").2.scoped_instances "IDatabase" = none :=
  spec_c4 genvDemo 9 c4inj "IDatabase"
    ⟨"Singleton", [("connection_string", .vstr "s"), ("logger", .vstr "@Missing")],
      .impl sqlDatabaseCls⟩
    ["ILogger"]
    (.runtimeError
      "Failed to create instance of IDatabase: Failed to create instance of IDatabase: Dependency Missing not found")
    rfl (Or.inl rfl) (by decide) (by unfold closedUnder; decide) (by decide) rfl rfl rfl

/-- C6: behaviour of `_resolve_constructor_params` entry-wise, in
dictionary order: (1) a map whose values are all non-markers passes
through entirely unchanged (no recursive resolution, no state change);
(2) the first marker whose stripped identifier is absent from
`globals()` aborts the whole resolution with the
`Dependency ... not found` `ValueError`, leaving the state unchanged
when all earlier entries were literals; (3) a leading marker whose
identifier names `dep` is substituted by the result of the recursive
`get_instance dep`, prepended to the resolution of the remaining
entries; (4) an error raised by that recursive `get_instance`
propagates out of the resolver unchanged. -/
theorem spec_c6 (genv : GEnv) :
    (∀ fuel inj (ps : List (String × Value)), ps.length < fuel →
      (∀ kv ∈ ps, isMarker kv.2 = false) →
      resolve_constructor_params genv fuel inj ps = (.ok ps, inj))
    ∧ (∀ fuel inj (pre post : List (String × Value)) k v, pre.length < fuel →
      (∀ kv ∈ pre, isMarker kv.2 = false) → isMarker v = true →
      lookupA genv (markerName v) = none →
      resolve_constructor_params genv fuel inj (pre ++ (k, v) :: post) =
        (.error (.valueError ("Dependency " ++ markerName v ++ " not found")), inj))
    ∧ (∀ fuel inj inj1 inj2 k v (rest rs : List (String × Value)) dep u,
      isMarker v = true → lookupA genv (markerName v) = some dep →
      get_instance genv fuel inj dep = (.ok u, inj1) →
      resolve_constructor_params genv fuel inj1 rest = (.ok rs, inj2) →
      resolve_constructor_params genv (fuel + 1) inj ((k, v) :: rest) =
        (.ok ((k, u) :: rs), inj2))
    ∧ (∀ fuel inj inj1 k v (rest : List (String × Value)) dep e,
      isMarker v = true → lookupA genv (markerName v) = some dep →
      get_instance genv fuel inj dep = (.error e, inj1) →
      resolve_constructor_params genv (fuel + 1) inj ((k, v) :: rest) = (.error e, inj1)) := by
  refine ⟨?_, ?_, ?_, ?_⟩
  · intro fuel inj ps
    induction ps generalizing fuel inj with
    | nil =>
      intro hf _
      match fuel, hf with
      | f + 1, _ => rfl
    | cons kv rest ih =>
      intro hf hall
      match fuel, hf with
      | f + 1, hf =>
        obtain ⟨k, v⟩ := kv
        have hm : isMarker v = false := hall (k, v) (List.mem_cons_self _ _)
        have hrec := ih f inj (Nat.lt_of_succ_lt_succ hf)
          (fun kv h => hall kv (List.mem_cons_of_mem _ h))
        simp [resolve_constructor_params, hm, hrec]
  · intro fuel inj pre post k v
    induction pre generalizing fuel inj with
    | nil =>
      intro hf _ hm hnone
      match fuel, hf with
      | f + 1, _ =>
        simp [resolve_constructor_params, hm, hnone]
    | cons kv pre' ih =>
      intro hf hall hm hnone
      match fuel, hf with
      | f + 1, hf =>
        obtain ⟨k', v'⟩ := kv
        have hm' : isMarker v' = false := hall (k', v') (List.mem_cons_self _ _)
        have hrec := ih f inj (Nat.lt_of_succ_lt_succ hf)
          (fun kv h => hall kv (List.mem_cons_of_mem _ h)) hm hnone
        simp [resolve_constructor_params, hm', hrec]
  · intro fuel inj inj1 inj2 k v rest rs dep u hm hdep hget hres
    simp [resolve_constructor_params, hm, hdep, hget, hres]
  · intro fuel inj inj1 k v rest dep e hm hdep hget
    simp [resolve_constructor_params, hm, hdep, hget]

def c6state : Injector :=
  { c2inj with
    singleton_instances := [("ILogger", Value.vobj 1 0 [] none)]
    next_id := 1 }

/-- Witness for `spec_c6`: literals pass through unchanged; the marker
`'@Missing'` fails with the dependency error; the marker `'@ILogger'`
is substituted by the recursively resolved `ConsoleLogger` singleton. -/
theorem spec_c6_witness :
    resolve_constructor_params genvDemo 2 c2inj [("connection_string", Value.vstr "s")] =
      (.ok [("connection_string", Value.vstr "s")], c2inj)
    ∧ resolve_constructor_params genvDemo 2 c2inj [("logger", Value.vstr "@Missing")] =
      (.error (.valueError "Dependency Missing not found"), c2inj)
    ∧ resolve_constructor_params genvDemo 6 c2inj [("logger", Value.vstr "@ILogger")] =
      (.ok [("logger", Value.vobj 1 0 [] none)], c6state) :=
  ⟨(spec_c6 genvDemo).1 2 c2inj [("connection_string", Value.vstr "s")] (by decide)
      (by decide),
   (spec_c6 genvDemo).2.1 2 c2inj [] [] "logger" (Value.vstr "@Missing") (by decide)
      (by decide) rfl rfl,
   (spec_c6 genvDemo).2.2.1 5 c2inj c6state c6state
      "logger" (Value.vstr "@ILogger") [] [] "ILogger" (Value.vobj 1 0 [] none)
      rfl rfl rfl rfl⟩
